import Mathlib

/-!
Verification development for the kinodynamic replanning FSM node
(`kino_replan_fsm_node.cpp`, class `fast_planner::KinoReplanFSM`).

Scalars are modelled as rationals (`ℚ`).  The external collaborators —
the Eigen norm, the B-spline sampling `evaluateDeBoorT`, `atan2` over the
odometry quaternion, `cos`/`sin`, the distance-field query
`evaluateCoarseEDT`, the planner call `kinodynamicReplan` and the trajectory
collision check `checkTrajCollision` — are supplied as oracle functions or
boolean results in per-tick environment records, since their code lives
outside this node.  The control flow of the FSM itself, state fields and arithmetic
are translated directly from the source.
-/

namespace FastPlanner

/-- 3-vector of rationals, modelling `Eigen::Vector3d`. -/
structure Vec3 where
  x : ℚ
  y : ℚ
  z : ℚ
deriving DecidableEq, Repr

/-- Componentwise subtraction, modelling Eigen `operator-`. -/
def Vec3.sub (a b : Vec3) : Vec3 := ⟨a.x - b.x, a.y - b.y, a.z - b.z⟩

/-- Quaternion of rationals, modelling `Eigen::Quaterniond` (w, x, y, z). -/
structure Quat where
  w : ℚ
  x : ℚ
  y : ℚ
  z : ℚ
deriving DecidableEq, Repr

/-- `enum FSM_EXEC_STATE { INIT, WAIT_TARGET, GEN_NEW_TRAJ, REPLAN_TRAJ,
EXEC_TRAJ, REPLAN_NEW }` from the source. -/
inductive FSM_EXEC_STATE where
  | INIT
  | WAIT_TARGET
  | GEN_NEW_TRAJ
  | REPLAN_TRAJ
  | EXEC_TRAJ
  | REPLAN_NEW
deriving DecidableEq, Repr

open FSM_EXEC_STATE

/-- The integer value of the C enum constant, as produced by
`int(exec_state_)` in `changeFSMExecState` / `printFSMExecState`. -/
def FSM_EXEC_STATE.toIndex : FSM_EXEC_STATE → Nat
  | INIT => 0
  | WAIT_TARGET => 1
  | GEN_NEW_TRAJ => 2
  | REPLAN_TRAJ => 3
  | EXEC_TRAJ => 4
  | REPLAN_NEW => 5

/-- `enum TARGET_TYPE { MANUAL_TARGET = 1, ... }`: value of `MANUAL_TARGET`. -/
def MANUAL_TARGET : Int := 1

/-- `enum TARGET_TYPE { ..., PRESET_TARGET = 2, ... }`: value of
`PRESET_TARGET`. -/
def PRESET_TARGET : Int := 2

/-- The mutable fields of the `KinoReplanFSM` node that the four callbacks
read and write. -/
structure FsmState where
  trigger : Bool
  have_target : Bool
  have_odom : Bool
  exec_state : FSM_EXEC_STATE
  odom_pos : Vec3
  odom_vel : Vec3
  odom_orient : Quat
  start_pt : Vec3
  start_vel : Vec3
  start_acc : Vec3
  start_yaw : Vec3
  end_pt : Vec3
  end_vel : Vec3
  current_wp : Nat
  target_type : Int
  no_replan_thresh : ℚ
  replan_thresh : ℚ
  waypoints : List Vec3
  waypoint_num : Nat
deriving DecidableEq, Repr

/-- `changeFSMExecState(new_state, pos_call)`: assigns `exec_state_`
(the `pos_call` string only feeds the log line). -/
def changeFSMExecState (s : FsmState) (new_state : FSM_EXEC_STATE) : FsmState :=
  { s with exec_state := new_state }

/-- `KinoReplanFSM::waypointCallback`: `msgPos` is
`msg->poses[0].pose.position`. -/
def waypointCallback (s : FsmState) (msgPos : Vec3) : FsmState :=
  if msgPos.z < -(1/10) then s
  else
    let s1 := { s with trigger := true }
    let s2 :=
      if s1.target_type = MANUAL_TARGET then
        { s1 with end_pt := ⟨msgPos.x, msgPos.y, 1⟩ }
      else if s1.target_type = PRESET_TARGET then
        { s1 with
          end_pt := s1.waypoints.getD s1.current_wp ⟨0, 0, 0⟩
          current_wp := (s1.current_wp + 1) % s1.waypoint_num }
      else s1
    let s3 := { s2 with end_vel := ⟨0, 0, 0⟩, have_target := true }
    if s3.exec_state = WAIT_TARGET then changeFSMExecState s3 GEN_NEW_TRAJ
    else if s3.exec_state = EXEC_TRAJ then changeFSMExecState s3 REPLAN_TRAJ
    else s3

/-- `KinoReplanFSM::odometryCallback`. -/
def odometryCallback (s : FsmState) (pos vel : Vec3) (orient : Quat) : FsmState :=
  { s with odom_pos := pos, odom_vel := vel, odom_orient := orient,
           have_odom := true }

/-- The trajectory fields of `planner_manager_->local_data_` that
`execFSMCallback` reads; the `evaluateDeBoorT` samplers are external
B-spline code and appear as oracle functions. -/
structure LocalTrajData where
  duration : ℚ
  start_pos : Vec3
  position_traj : ℚ → Vec3
  velocity_traj : ℚ → Vec3
  acceleration_traj : ℚ → Vec3
  yaw_traj : ℚ → ℚ
  yawdot_traj : ℚ → ℚ
  yawdotdot_traj : ℚ → ℚ

/-- Per-tick inputs of `execFSMCallback` that come from outside the fields
of the node: the clock, the active trajectory, the Eigen norm, the yaw
extracted from the odometry quaternion via `atan2`, and the result of
`callKinodynamicReplan`. -/
structure TickEnv where
  elapsed : ℚ
  info : LocalTrajData
  norm : Vec3 → ℚ
  yawFromOdom : Quat → ℚ
  replanSuccess : Bool

/-- `t_cur` as computed in the `EXEC_TRAJ` case:
`t_cur = (curr_time - info->start_time_).seconds();
 t_cur = std::min(info->duration_, t_cur);`. -/
def execTCur (env : TickEnv) : ℚ := min env.info.duration env.elapsed

/-- `t_cur` as computed in the `REPLAN_TRAJ` case:
`t_cur = (curr_time - info->start_time_).seconds();` with no further
adjustment. -/
def replanTCur (env : TickEnv) : ℚ := env.elapsed

/-- `KinoReplanFSM::execFSMCallback`.  Returns the updated node state and
the number of `std_msgs::Empty` messages published on `replan_pub_` during
the tick. -/
def execFSMCallback (s : FsmState) (env : TickEnv) : FsmState × Nat :=
  match s.exec_state with
  | INIT =>
      if !s.have_odom then (s, 0)
      else if !s.trigger then (s, 0)
      else (changeFSMExecState s WAIT_TARGET, 0)
  | WAIT_TARGET =>
      if !s.have_target then (s, 0)
      else (changeFSMExecState s GEN_NEW_TRAJ, 0)
  | GEN_NEW_TRAJ =>
      let s1 := { s with
        start_pt := s.odom_pos
        start_vel := s.odom_vel
        start_acc := ⟨0, 0, 0⟩
        start_yaw := ⟨env.yawFromOdom s.odom_orient, 0, 0⟩ }
      if env.replanSuccess then (changeFSMExecState s1 EXEC_TRAJ, 0)
      else (changeFSMExecState s1 GEN_NEW_TRAJ, 0)
  | EXEC_TRAJ =>
      let t_cur := execTCur env
      let pos := env.info.position_traj t_cur
      if t_cur > env.info.duration - 1/100 then
        (changeFSMExecState { s with have_target := false } WAIT_TARGET, 0)
      else if env.norm (Vec3.sub s.end_pt pos) < s.no_replan_thresh then
        (s, 0)
      else if env.norm (Vec3.sub env.info.start_pos pos) < s.replan_thresh then
        (s, 0)
      else
        (changeFSMExecState s REPLAN_TRAJ, 0)
  | REPLAN_TRAJ =>
      let t_cur := replanTCur env
      let s1 := { s with
        start_pt := env.info.position_traj t_cur
        start_vel := env.info.velocity_traj t_cur
        start_acc := env.info.acceleration_traj t_cur
        start_yaw := ⟨env.info.yaw_traj t_cur, env.info.yawdot_traj t_cur,
                      env.info.yawdotdot_traj t_cur⟩ }
      if env.replanSuccess then (changeFSMExecState s1 EXEC_TRAJ, 1)
      else (changeFSMExecState s1 GEN_NEW_TRAJ, 1)
  | REPLAN_NEW =>
      (s, 0)

/-- Values visited by a C-style `for (double x = start; cont(x); x += step)`
loop, with explicit fuel (every loop in the source is finite). -/
def loopVals (fuel : Nat) (start step : ℚ) (cont : ℚ → Bool) : List ℚ :=
  match fuel with
  | 0 => []
  | fuel + 1 =>
      if cont start then start :: loopVals fuel (start + step) step cont
      else []

/-- Radii visited by `for (double r = dr; r <= 5 * dr + 1e-3; r += dr)` with
`dr = 0.5`. -/
def gridRadii : List ℚ :=
  loopVals 20 (1/2) (1/2) (fun r => decide (r ≤ 5 * (1/2) + 1/1000))

/-- Azimuths visited by `for (double theta = -90; theta <= 270; theta += dtheta)`
with `dtheta = 30`. -/
def gridThetas : List ℚ :=
  loopVals 20 (-90) 30 (fun th => decide (th ≤ 270))

/-- Vertical offsets visited by
`for (double nz = 1 * dz; nz >= -1 * dz; nz -= dz)` with `dz = 0.3`. -/
def gridDzs : List ℚ :=
  loopVals 20 (3/10) (-(3/10)) (fun nz => decide (nz ≥ -(3/10)))

/-- One candidate point of the relocation grid:
`new_x = end_pt_(0) + r * cos(theta / 57.3)` etc., with `cos`/`sin` as
oracle functions. -/
def candidatePoint (cosF sinF : ℚ → ℚ) (g : Vec3) (r th nz : ℚ) : Vec3 :=
  ⟨g.x + r * cosF (th / (573/10)),
   g.y + r * sinF (th / (573/10)),
   g.z + nz⟩

/-- All candidate points of the triple loop in `checkCollisionCallback`, in
source iteration order. -/
def candidatePoints (cosF sinF : ℚ → ℚ) (g : Vec3) : List Vec3 :=
  gridRadii.flatMap fun r =>
    gridThetas.flatMap fun th =>
      gridDzs.map fun nz => candidatePoint cosF sinF g r th nz

/-- The body of the grid loop: strict-improvement update of
`(max_dist, goal)`. -/
def searchStep (clear : Vec3 → ℚ) (acc : ℚ × Vec3) (p : Vec3) : ℚ × Vec3 :=
  if clear p > acc.1 then (clear p, p) else acc

/-- The goal-relocation grid search of `checkCollisionCallback`: starting
from `max_dist = -1.0`, fold the strict-improvement update over all
candidates.  (`goal` is uninitialised in the C++ and only read after at
least one update; we seed it with the origin.) -/
def goalRelocationSearch (clear : Vec3 → ℚ) (cosF sinF : ℚ → ℚ) (g : Vec3) :
    ℚ × Vec3 :=
  (candidatePoints cosF sinF g).foldl (searchStep clear) (-1, ⟨0, 0, 0⟩)

/-- Per-tick inputs of `checkCollisionCallback` from outside the fields
of the node: the dynamic-environment flag `pp_.dynamic_`, `info->duration_`, the
distance-field oracle `evaluateCoarseEDT`, the trig oracles, and the result
of `planner_manager_->checkTrajCollision`. -/
structure SafetyEnv where
  dynamic : Bool
  duration : ℚ
  edt : Vec3 → ℚ → ℚ
  cosF : ℚ → ℚ
  sinF : ℚ → ℚ
  trajSafe : Bool

/-- The clearance query as issued by `checkCollisionCallback`:
time-aware with `info->duration_` when `pp_.dynamic_`, else the static
variant with sentinel time `-1.0`. -/
def evalClearance (env : SafetyEnv) (p : Vec3) : ℚ :=
  if env.dynamic then env.edt p env.duration else env.edt p (-1)

/-- The grid search as run by `checkCollisionCallback` over the current
goal of the node, with the clearance oracle fixed to the
`evaluateCoarseEDT` query. -/
def relocationResult (env : SafetyEnv) (g : Vec3) : ℚ × Vec3 :=
  goalRelocationSearch (evalClearance env) env.cosF env.sinF g

/-- `KinoReplanFSM::checkCollisionCallback`.  Returns the updated node state
and the number of messages published on `replan_pub_`. -/
def checkCollisionCallback (s : FsmState) (env : SafetyEnv) : FsmState × Nat :=
  let afterGoal : FsmState × Nat :=
    if s.have_target then
      let dist := evalClearance env s.end_pt
      if dist ≤ 3/10 then
        let res := relocationResult env s.end_pt
        if res.1 > 3/10 then
          let s1 := { s with end_pt := res.2, have_target := true,
                             end_vel := ⟨0, 0, 0⟩ }
          let s2 :=
            if s1.exec_state = EXEC_TRAJ then changeFSMExecState s1 REPLAN_TRAJ
            else s1
          (s2, 0)
        else
          (changeFSMExecState s REPLAN_TRAJ, 1)
      else (s, 0)
    else (s, 0)
  let s1 := afterGoal.1
  if s1.exec_state = EXEC_TRAJ then
    if env.trajSafe then (s1, afterGoal.2)
    else (changeFSMExecState s1 REPLAN_TRAJ, afterGoal.2)
  else (s1, afterGoal.2)

/-- One dispatch of any of the four callbacks registered by `init`, with
arbitrary external inputs. -/
inductive NodeStep : FsmState → FsmState → Prop where
  | exec (s : FsmState) (env : TickEnv) : NodeStep s (execFSMCallback s env).1
  | safety (s : FsmState) (env : SafetyEnv) : NodeStep s (checkCollisionCallback s env).1
  | waypoint (s : FsmState) (m : Vec3) : NodeStep s (waypointCallback s m)
  | odom (s : FsmState) (p v : Vec3) (q : Quat) : NodeStep s (odometryCallback s p v q)

/-- Node states reachable from any state whose execution state is `INIT`,
as set up by the constructor and `init`. -/
inductive Reachable : FsmState → Prop where
  | start (s : FsmState) (h : s.exec_state = FSM_EXEC_STATE.INIT) : Reachable s
  | step {s t : FsmState} (hr : Reachable s) (hs : NodeStep s t) : Reachable t

/-! Concrete sample data for instantiating the theorems below. -/

/-- A sample active trajectory: duration 10, position curve `t ↦ (t, 0, 0)`. -/
def sampleTraj : LocalTrajData where
  duration := 10
  start_pos := ⟨0, 0, 0⟩
  position_traj := fun t => ⟨t, 0, 0⟩
  velocity_traj := fun _ => ⟨1, 0, 0⟩
  acceleration_traj := fun _ => ⟨0, 0, 0⟩
  yaw_traj := fun _ => 0
  yawdot_traj := fun _ => 0
  yawdotdot_traj := fun _ => 0

/-- Manhattan length: a concrete stand-in for the Eigen norm in sample
environments. -/
def absNorm (v : Vec3) : ℚ := |v.x| + |v.y| + |v.z|

/-- A sample tick environment over `sampleTraj`. -/
def sampleTick (elapsed : ℚ) (success : Bool) : TickEnv where
  elapsed := elapsed
  info := sampleTraj
  norm := absNorm
  yawFromOdom := fun _ => 0
  replanSuccess := success

/-- A sample node state in the given execution state, goal at `(100, 0, 0)`,
thresholds `no_replan_thresh = 2`, `replan_thresh = 1`. -/
def sampleState (st : FSM_EXEC_STATE) : FsmState where
  trigger := true
  have_target := true
  have_odom := true
  exec_state := st
  odom_pos := ⟨0, 0, 0⟩
  odom_vel := ⟨0, 0, 0⟩
  odom_orient := ⟨1, 0, 0, 0⟩
  start_pt := ⟨0, 0, 0⟩
  start_vel := ⟨0, 0, 0⟩
  start_acc := ⟨0, 0, 0⟩
  start_yaw := ⟨0, 0, 0⟩
  end_pt := ⟨100, 0, 0⟩
  end_vel := ⟨0, 0, 0⟩
  current_wp := 0
  target_type := 1
  no_replan_thresh := 2
  replan_thresh := 1
  waypoints := []
  waypoint_num := 0

/-- A sample safety environment whose distance field answers the constant
clearance `c` at every query point. -/
def sampleSafety (c : ℚ) (safe : Bool) : SafetyEnv where
  dynamic := false
  duration := 10
  edt := fun _ _ => c
  cosF := fun _ => 1
  sinF := fun _ => 0
  trajSafe := safe

/-! Helper lemmas, shared by the claim theorems below. -/

/-- The radius loop visits exactly 0.5, 1, 1.5, 2, 2.5. -/
theorem gridRadii_eval : gridRadii = [1/2, 1, 3/2, 2, 5/2] := by
  simp only [gridRadii]; norm_num [loopVals]

/-- The azimuth loop visits exactly -90, -60, ..., 270. -/
theorem gridThetas_eval :
    gridThetas = [-90, -60, -30, 0, 30, 60, 90, 120, 150, 180, 210, 240, 270] := by
  simp only [gridThetas]; norm_num [loopVals]

/-- The vertical-offset loop visits exactly 0.3, 0, -0.3. -/
theorem gridDzs_eval : gridDzs = [3/10, 0, -(3/10)] := by
  simp only [gridDzs]; norm_num [loopVals]

/-- Any number of consecutive failing ticks starting from `GEN_NEW_TRAJ`
leaves the execution state at `GEN_NEW_TRAJ`. -/
theorem genNewTraj_retry_iter (envs : List TickEnv) :
    ∀ s : FsmState, (∀ e ∈ envs, e.replanSuccess = false) →
      s.exec_state = FSM_EXEC_STATE.GEN_NEW_TRAJ →
      (envs.foldl (fun st e => (execFSMCallback st e).1) s).exec_state =
        FSM_EXEC_STATE.GEN_NEW_TRAJ := by
  induction envs with
  | nil => intro s _ h; simpa using h
  | cons e es ih =>
      intro s hall h
      simp only [List.foldl_cons]
      apply ih
      · intro e2 he2; exact hall e2 (List.mem_cons_of_mem e he2)
      · obtain ⟨tr, htg, ho, est, op, ov, oo, sp, sv, sa, sy, ep, ev, cw, tt, nr, rp, wps, wn⟩ := s
        obtain rfl : est = FSM_EXEC_STATE.GEN_NEW_TRAJ := h
        simp [execFSMCallback, changeFSMExecState, hall e (List.mem_cons_self e es)]

/-- The first component of one strict-improvement update is a `max`. -/
theorem searchStep_fst (clear : Vec3 → ℚ) (acc : ℚ × Vec3) (p : Vec3) :
    (searchStep clear acc p).1 = max acc.1 (clear p) := by
  unfold searchStep
  split_ifs with hc
  · exact (max_eq_right hc.le).symm
  · exact (max_eq_left (not_lt.mp hc)).symm

/-- The tracked best clearance of the grid fold is the running maximum of
all queried clearances. -/
theorem foldl_searchStep_fst (clear : Vec3 → ℚ) :
    ∀ (ps : List Vec3) (acc : ℚ × Vec3),
      (ps.foldl (searchStep clear) acc).1 = (ps.map clear).foldl max acc.1 := by
  intro ps
  induction ps with
  | nil => intro acc; rfl
  | cons p ps ih =>
      intro acc
      simp only [List.foldl_cons, List.map_cons]
      rw [ih, searchStep_fst]

/-- An upper bound on every queried clearance bounds the grid fold. -/
theorem foldl_searchStep_le (clear : Vec3 → ℚ) (c : ℚ) :
    ∀ (ps : List Vec3) (acc : ℚ × Vec3), acc.1 ≤ c → (∀ p ∈ ps, clear p ≤ c) →
      (ps.foldl (searchStep clear) acc).1 ≤ c := by
  intro ps
  induction ps with
  | nil => intro acc h _; exact h
  | cons p ps ih =>
      intro acc h hall
      simp only [List.foldl_cons]
      refine ih _ ?_ fun q hq => hall q (List.mem_cons_of_mem p hq)
      rw [searchStep_fst]
      exact max_le h (hall p (List.mem_cons_self p ps))

/-- The grid fold only observes the oracle at the points of the list. -/
theorem foldl_searchStep_congr (c1 c2 : Vec3 → ℚ) :
    ∀ (ps : List Vec3) (acc : ℚ × Vec3), (∀ p ∈ ps, c1 p = c2 p) →
      ps.foldl (searchStep c1) acc = ps.foldl (searchStep c2) acc := by
  intro ps
  induction ps with
  | nil => intro acc _; rfl
  | cons p ps ih =>
      intro acc hall
      simp only [List.foldl_cons]
      rw [show searchStep c1 acc p = searchStep c2 acc p by
            unfold searchStep; rw [hall p (List.mem_cons_self p ps)]]
      exact ih _ fun q hq => hall q (List.mem_cons_of_mem p hq)

/-- A tick never moves the execution state onto the unused `REPLAN_NEW`
value. -/
theorem execFSMCallback_no_replan_new (s : FsmState) (env : TickEnv)
    (h : s.exec_state ≠ FSM_EXEC_STATE.REPLAN_NEW) :
    (execFSMCallback s env).1.exec_state ≠ FSM_EXEC_STATE.REPLAN_NEW := by
  obtain ⟨tr, htg, ho, est, op, ov, oo, sp, sv, sa, sy, ep, ev, cw, tt, nr, rp, wps, wn⟩ := s
  simp only at h
  cases est <;>
    simp only [execFSMCallback, changeFSMExecState] <;>
    (try split_ifs) <;>
    simp_all

/-- The safety tick never moves the execution state onto `REPLAN_NEW`. -/
theorem checkCollision_no_replan_new (s : FsmState) (env : SafetyEnv)
    (h : s.exec_state ≠ FSM_EXEC_STATE.REPLAN_NEW) :
    (checkCollisionCallback s env).1.exec_state ≠ FSM_EXEC_STATE.REPLAN_NEW := by
  obtain ⟨tr, htg, ho, est, op, ov, oo, sp, sv, sa, sy, ep, ev, cw, tt, nr, rp, wps, wn⟩ := s
  simp only at h
  simp only [checkCollisionCallback, changeFSMExecState]
  split_ifs <;> simp_all

/-- The goal handler never moves the execution state onto `REPLAN_NEW`. -/
theorem waypointCallback_no_replan_new (s : FsmState) (m : Vec3)
    (h : s.exec_state ≠ FSM_EXEC_STATE.REPLAN_NEW) :
    (waypointCallback s m).exec_state ≠ FSM_EXEC_STATE.REPLAN_NEW := by
  obtain ⟨tr, htg, ho, est, op, ov, oo, sp, sv, sa, sy, ep, ev, cw, tt, nr, rp, wps, wn⟩ := s
  simp only at h
  simp only [waypointCallback, changeFSMExecState]
  split_ifs <;> simp_all

/-! Claim theorems. -/

/-- Claim C1: in state `EXEC_TRAJ`, the tick applies the replan decision as a
three-way chain.  If the clamped elapsed time exceeds `duration - 1e-2` (in
particular when it equals `duration`), the goal flag is cleared and the
state becomes `WAIT_TARGET`, regardless of distances and thresholds.
Otherwise, if the sampled position is within `no_replan_thresh` of the goal,
or failing that within `replan_thresh` of the trajectory start, the state
and goal are unchanged; otherwise the state becomes `REPLAN_TRAJ`. -/
theorem execTraj_replan_decision_policy (s : FsmState) (env : TickEnv)
    (h : s.exec_state = FSM_EXEC_STATE.EXEC_TRAJ) :
    (execTCur env > env.info.duration - 1/100 →
      execFSMCallback s env =
        ({ s with have_target := false,
                  exec_state := FSM_EXEC_STATE.WAIT_TARGET }, 0)) ∧
    (execTCur env = env.info.duration →
      execFSMCallback s env =
        ({ s with have_target := false,
                  exec_state := FSM_EXEC_STATE.WAIT_TARGET }, 0)) ∧
    (¬ execTCur env > env.info.duration - 1/100 →
      env.norm (Vec3.sub s.end_pt (env.info.position_traj (execTCur env))) <
          s.no_replan_thresh →
      execFSMCallback s env = (s, 0)) ∧
    (¬ execTCur env > env.info.duration - 1/100 →
      ¬ env.norm (Vec3.sub s.end_pt (env.info.position_traj (execTCur env))) <
          s.no_replan_thresh →
      env.norm (Vec3.sub env.info.start_pos (env.info.position_traj (execTCur env))) <
          s.replan_thresh →
      execFSMCallback s env = (s, 0)) ∧
    (¬ execTCur env > env.info.duration - 1/100 →
      ¬ env.norm (Vec3.sub s.end_pt (env.info.position_traj (execTCur env))) <
          s.no_replan_thresh →
      ¬ env.norm (Vec3.sub env.info.start_pos (env.info.position_traj (execTCur env))) <
          s.replan_thresh →
      execFSMCallback s env =
        ({ s with exec_state := FSM_EXEC_STATE.REPLAN_TRAJ }, 0)) := by
  obtain ⟨tr, htg, ho, es, op, ov, oo, sp, sv, sa, sy, ep, ev, cw, tt, nr, rp, wps, wn⟩ := s
  obtain rfl : es = FSM_EXEC_STATE.EXEC_TRAJ := h
  refine ⟨?_, ?_, ?_, ?_, ?_⟩ <;>
    intros <;>
    simp only [execFSMCallback, changeFSMExecState] <;>
    split_ifs <;>
    first
      | rfl
      | (exfalso; linarith)

/-- Claim C1 witness: with the goal at distance 95 and the start at distance
5 from the sampled point, an exhausted trajectory clears the goal and a
mid-flight tick replans. -/
theorem execTraj_replan_decision_policy_inst :
    execFSMCallback (sampleState FSM_EXEC_STATE.EXEC_TRAJ) (sampleTick 10 true) =
      ({ sampleState FSM_EXEC_STATE.EXEC_TRAJ with
          have_target := false, exec_state := FSM_EXEC_STATE.WAIT_TARGET }, 0) ∧
    execFSMCallback (sampleState FSM_EXEC_STATE.EXEC_TRAJ) (sampleTick 5 true) =
      ({ sampleState FSM_EXEC_STATE.EXEC_TRAJ with
          exec_state := FSM_EXEC_STATE.REPLAN_TRAJ }, 0) := by
  constructor
  · exact (execTraj_replan_decision_policy _ _ rfl).1
      (by norm_num [execTCur, sampleTick, sampleTraj, min_def])
  · refine (execTraj_replan_decision_policy _ _ rfl).2.2.2.2 ?_ ?_ ?_
    · norm_num [execTCur, sampleTick, sampleTraj, min_def]
    · norm_num [execTCur, sampleTick, sampleTraj, sampleState, absNorm, Vec3.sub, min_def]
    · norm_num [execTCur, sampleTick, sampleTraj, sampleState, absNorm, Vec3.sub, min_def]

/-- Claim C2 counterexample: the claim that both `t_cur` values lie in
`[0, duration]` for every tick fails.  In `REPLAN_TRAJ` the elapsed time is
not clamped: at elapsed time 20 on a duration-10 trajectory the boundary
conditions are sampled at 20 (observable through `start_pt`), and in
`EXEC_TRAJ` a tick before the trajectory start gives a negative `t_cur`. -/
theorem tcur_clamp_cex :
    (sampleTick 20 true).info.duration = 10 ∧
    replanTCur (sampleTick 20 true) = 20 ∧
    ¬ replanTCur (sampleTick 20 true) ≤ (sampleTick 20 true).info.duration ∧
    (execFSMCallback (sampleState FSM_EXEC_STATE.REPLAN_TRAJ)
        (sampleTick 20 true)).1.start_pt = ⟨20, 0, 0⟩ ∧
    execTCur (sampleTick (-1) true) = -1 ∧
    ¬ 0 ≤ execTCur (sampleTick (-1) true) := by
  refine ⟨rfl, rfl, by norm_num [replanTCur, sampleTick, sampleTraj], ?_, ?_, ?_⟩
  · simp [execFSMCallback, changeFSMExecState, sampleState, sampleTick, sampleTraj,
          replanTCur]
  · norm_num [execTCur, sampleTick, sampleTraj, min_def]
  · norm_num [execTCur, sampleTick, sampleTraj, min_def]

/-- Claim C2 as amended: the `EXEC_TRAJ` elapsed time is clamped only from
above, `t_cur = min(duration, elapsed)`, so it never exceeds the duration
and lies in `[0, duration]` whenever the tick occurs at or after the
trajectory start (and the duration is nonnegative); the `REPLAN_TRAJ`
elapsed time is used raw, with no clamping at all. -/
theorem tcur_clamp_one_sided (env : TickEnv) :
    execTCur env ≤ env.info.duration ∧
    (0 ≤ env.elapsed → 0 ≤ env.info.duration →
      0 ≤ execTCur env ∧ execTCur env ≤ env.info.duration) ∧
    replanTCur env = env.elapsed :=
  ⟨min_le_left _ _, fun h1 h2 => ⟨le_min h2 h1, min_le_left _ _⟩, rfl⟩

/-- Claim C2 amended witness at elapsed time 5 on a duration-10
trajectory. -/
theorem tcur_clamp_one_sided_inst :
    execTCur (sampleTick 5 true) ≤ (sampleTick 5 true).info.duration ∧
    0 ≤ execTCur (sampleTick 5 true) ∧
    replanTCur (sampleTick 5 true) = 5 := by
  obtain ⟨h1, h2, h3⟩ := tcur_clamp_one_sided (sampleTick 5 true)
  exact ⟨h1, (h2 (by norm_num [sampleTick]) (by norm_num [sampleTick, sampleTraj])).1, h3⟩

/-- Claim C3: on a goal message whose first pose has `z ≥ -0.1`, the
`trigger` and `have_target` flags are set, the goal velocity is zeroed, and
the state moves to `GEN_NEW_TRAJ` exactly from `WAIT_TARGET`, to
`REPLAN_TRAJ` exactly from `EXEC_TRAJ`, and is unchanged from any other
state. -/
theorem waypoint_goal_transitions (s : FsmState) (m : Vec3)
    (h : ¬ m.z < -(1/10)) :
    (waypointCallback s m).trigger = true ∧
    (waypointCallback s m).have_target = true ∧
    (waypointCallback s m).end_vel = ⟨0, 0, 0⟩ ∧
    (waypointCallback s m).exec_state =
      (if s.exec_state = FSM_EXEC_STATE.WAIT_TARGET then FSM_EXEC_STATE.GEN_NEW_TRAJ
       else if s.exec_state = FSM_EXEC_STATE.EXEC_TRAJ then FSM_EXEC_STATE.REPLAN_TRAJ
       else s.exec_state) := by
  simp only [waypointCallback, changeFSMExecState, if_neg h]
  split_ifs <;> simp_all

/-- Claim C3 witness: a valid goal received in `WAIT_TARGET` latches the
goal and forces `GEN_NEW_TRAJ`. -/
theorem waypoint_goal_transitions_inst :
    (waypointCallback (sampleState FSM_EXEC_STATE.WAIT_TARGET) ⟨1, 2, 3⟩).trigger = true ∧
    (waypointCallback (sampleState FSM_EXEC_STATE.WAIT_TARGET) ⟨1, 2, 3⟩).have_target = true ∧
    (waypointCallback (sampleState FSM_EXEC_STATE.WAIT_TARGET) ⟨1, 2, 3⟩).end_vel = ⟨0, 0, 0⟩ ∧
    (waypointCallback (sampleState FSM_EXEC_STATE.WAIT_TARGET) ⟨1, 2, 3⟩).exec_state =
      FSM_EXEC_STATE.GEN_NEW_TRAJ := by
  obtain ⟨h1, h2, h3, h4⟩ :=
    waypoint_goal_transitions (sampleState FSM_EXEC_STATE.WAIT_TARGET) ⟨1, 2, 3⟩
      (by norm_num)
  exact ⟨h1, h2, h3, by rw [h4]; rfl⟩

/-- Claim C4: with a held goal whose clearance is at most 0.3, the safety
tick runs the fixed grid search (radii 0.5 to 2.5 in steps of 0.5, azimuths
-90 to 270 in steps of 30, vertical offsets 0.3, 0, -0.3), tracking the
maximum clearance; if the maximum exceeds 0.3 the goal is replaced by the
best candidate, the goal is re-latched, the goal velocity zeroed, and the
state forced to `REPLAN_TRAJ` exactly when it was `EXEC_TRAJ`; otherwise
the goal is unchanged, the state is forced to `REPLAN_TRAJ` unconditionally
and one replan signal is published. -/
theorem safety_goal_relocation_policy (s : FsmState) (env : SafetyEnv)
    (ht : s.have_target = true) (hd : evalClearance env s.end_pt ≤ 3/10) :
    gridRadii = [1/2, 1, 3/2, 2, 5/2] ∧
    gridThetas = [-90, -60, -30, 0, 30, 60, 90, 120, 150, 180, 210, 240, 270] ∧
    gridDzs = [3/10, 0, -(3/10)] ∧
    (relocationResult env s.end_pt).1 =
      ((candidatePoints env.cosF env.sinF s.end_pt).map (evalClearance env)).foldl
        max (-1) ∧
    ((relocationResult env s.end_pt).1 > 3/10 →
      checkCollisionCallback s env =
        ({ s with end_pt := (relocationResult env s.end_pt).2,
                  have_target := true, end_vel := ⟨0, 0, 0⟩,
                  exec_state :=
                    if s.exec_state = FSM_EXEC_STATE.EXEC_TRAJ then
                      FSM_EXEC_STATE.REPLAN_TRAJ
                    else s.exec_state }, 0)) ∧
    (¬ (relocationResult env s.end_pt).1 > 3/10 →
      checkCollisionCallback s env =
        ({ s with exec_state := FSM_EXEC_STATE.REPLAN_TRAJ }, 1)) := by
  obtain ⟨tr, htg, ho, est, op, ov, oo, sp, sv, sa, sy, ep, ev, cw, tt, nr, rp, wps, wn⟩ := s
  simp only at ht
  subst ht
  refine ⟨gridRadii_eval, gridThetas_eval, gridDzs_eval, ?_, ?_, ?_⟩
  · exact foldl_searchStep_fst _ _ _
  · intro hres
    simp only [checkCollisionCallback, changeFSMExecState, if_pos hd, if_pos hres]
    split_ifs <;> simp_all
  · intro hres
    simp only [checkCollisionCallback, changeFSMExecState, if_pos hd, if_neg hres]
    split_ifs <;> simp_all

/-- Claim C4 witness: a uniform clearance of 0.1 puts the goal below the
margin and yields no safe candidate, so the goal survives, the state is
forced to `REPLAN_TRAJ` and one replan signal is published. -/
theorem safety_goal_relocation_policy_inst :
    checkCollisionCallback (sampleState FSM_EXEC_STATE.EXEC_TRAJ) (sampleSafety (1/10) true) =
      ({ sampleState FSM_EXEC_STATE.EXEC_TRAJ with
          exec_state := FSM_EXEC_STATE.REPLAN_TRAJ }, 1) := by
  refine (safety_goal_relocation_policy (sampleState FSM_EXEC_STATE.EXEC_TRAJ)
      (sampleSafety (1/10) true) rfl ?_).2.2.2.2.2 ?_
  · norm_num [evalClearance, sampleSafety, sampleState]
  · refine not_lt.mpr ?_
    unfold relocationResult goalRelocationSearch
    refine foldl_searchStep_le _ _ _ _ (by norm_num) fun p _ => ?_
    norm_num [evalClearance, sampleSafety]

/-- Claim C5: a goal message whose first pose has `z < -0.1` is ignored
entirely: the handler returns the node state unchanged in every field. -/
theorem waypoint_sentinel_no_effect (s : FsmState) (m : Vec3)
    (h : m.z < -(1/10)) : waypointCallback s m = s := by
  simp only [waypointCallback, if_pos h]

/-- Claim C5 witness: a goal at `z = -5` leaves the state untouched. -/
theorem waypoint_sentinel_no_effect_inst :
    waypointCallback (sampleState FSM_EXEC_STATE.WAIT_TARGET) ⟨0, 0, -5⟩ =
      sampleState FSM_EXEC_STATE.WAIT_TARGET :=
  waypoint_sentinel_no_effect _ _ (by norm_num)

/-- Claim C6: a failed planner call in `GEN_NEW_TRAJ` re-enters
`GEN_NEW_TRAJ` (and stays there over any number of consecutive failing
ticks), a failed call in `REPLAN_TRAJ` moves to `GEN_NEW_TRAJ`, and a
successful call from either state moves to `EXEC_TRAJ`. -/
theorem replan_failure_retry (s : FsmState) (env : TickEnv) :
    (s.exec_state = FSM_EXEC_STATE.GEN_NEW_TRAJ → env.replanSuccess = false →
      (execFSMCallback s env).1.exec_state = FSM_EXEC_STATE.GEN_NEW_TRAJ) ∧
    (s.exec_state = FSM_EXEC_STATE.REPLAN_TRAJ → env.replanSuccess = false →
      (execFSMCallback s env).1.exec_state = FSM_EXEC_STATE.GEN_NEW_TRAJ) ∧
    (s.exec_state = FSM_EXEC_STATE.GEN_NEW_TRAJ ∨
        s.exec_state = FSM_EXEC_STATE.REPLAN_TRAJ → env.replanSuccess = true →
      (execFSMCallback s env).1.exec_state = FSM_EXEC_STATE.EXEC_TRAJ) ∧
    (∀ envs : List TickEnv, (∀ e ∈ envs, e.replanSuccess = false) →
      s.exec_state = FSM_EXEC_STATE.GEN_NEW_TRAJ →
      (envs.foldl (fun st e => (execFSMCallback st e).1) s).exec_state =
        FSM_EXEC_STATE.GEN_NEW_TRAJ) := by
  obtain ⟨tr, htg, ho, est, op, ov, oo, sp, sv, sa, sy, ep, ev, cw, tt, nr, rp, wps, wn⟩ := s
  refine ⟨?_, ?_, ?_, fun envs hall h => genNewTraj_retry_iter envs _ hall h⟩
  · intro h hf
    obtain rfl : est = FSM_EXEC_STATE.GEN_NEW_TRAJ := h
    simp [execFSMCallback, changeFSMExecState, hf]
  · intro h hf
    obtain rfl : est = FSM_EXEC_STATE.REPLAN_TRAJ := h
    simp [execFSMCallback, changeFSMExecState, hf]
  · rintro (h | h) hsucc
    · obtain rfl : est = FSM_EXEC_STATE.GEN_NEW_TRAJ := h
      simp [execFSMCallback, changeFSMExecState, hsucc]
    · obtain rfl : est = FSM_EXEC_STATE.REPLAN_TRAJ := h
      simp [execFSMCallback, changeFSMExecState, hsucc]

/-- Claim C6 witness: three consecutive failing ticks from `GEN_NEW_TRAJ`
leave the state at `GEN_NEW_TRAJ`. -/
theorem replan_failure_retry_inst :
    (([sampleTick 1 false, sampleTick 2 false, sampleTick 3 false] : List TickEnv).foldl
        (fun st e => (execFSMCallback st e).1)
        (sampleState FSM_EXEC_STATE.GEN_NEW_TRAJ)).exec_state =
      FSM_EXEC_STATE.GEN_NEW_TRAJ := by
  refine (replan_failure_retry (sampleState FSM_EXEC_STATE.GEN_NEW_TRAJ)
      (sampleTick 1 false)).2.2.2 _ ?_ rfl
  intro e he
  simp only [List.mem_cons, List.mem_singleton, List.not_mem_nil, or_false] at he
  rcases he with rfl | rfl | rfl <;> rfl

/-- Claim C7: a tick publishes exactly one replan signal when it starts in
`REPLAN_TRAJ` (success or failure alike) and none otherwise; the safety
tick publishes exactly one replan signal when the goal relocation fails and
none when the relocation succeeds, when the goal clearance is above the
margin, or when no goal is held. -/
theorem replan_signal_counts (s : FsmState) (tenv : TickEnv) (senv : SafetyEnv) :
    ((execFSMCallback s tenv).2 =
      if s.exec_state = FSM_EXEC_STATE.REPLAN_TRAJ then 1 else 0) ∧
    (s.have_target = true → evalClearance senv s.end_pt ≤ 3/10 →
      (relocationResult senv s.end_pt).1 ≤ 3/10 →
      (checkCollisionCallback s senv).2 = 1) ∧
    (s.have_target = true → evalClearance senv s.end_pt ≤ 3/10 →
      (relocationResult senv s.end_pt).1 > 3/10 →
      (checkCollisionCallback s senv).2 = 0) ∧
    (s.have_target = false → (checkCollisionCallback s senv).2 = 0) ∧
    (¬ evalClearance senv s.end_pt ≤ 3/10 → (checkCollisionCallback s senv).2 = 0) := by
  obtain ⟨tr, htg, ho, est, op, ov, oo, sp, sv, sa, sy, ep, ev, cw, tt, nr, rp, wps, wn⟩ := s
  refine ⟨?_, ?_, ?_, ?_, ?_⟩
  · cases est <;> simp [execFSMCallback, changeFSMExecState] <;> split_ifs <;> rfl
  · intro ht hd hres
    simp only at ht
    subst ht
    simp only [checkCollisionCallback, changeFSMExecState, if_pos hd]
    rw [if_neg (not_lt.mpr hres)]
    split_ifs <;> rfl
  · intro ht hd hres
    simp only at ht
    subst ht
    simp only [checkCollisionCallback, changeFSMExecState, if_pos hd]
    rw [if_pos hres]
    split_ifs <;> rfl
  · intro ht
    simp only at ht
    subst ht
    simp only [checkCollisionCallback, changeFSMExecState]
    split_ifs <;> simp_all
  · intro hd
    simp only [checkCollisionCallback, changeFSMExecState, if_neg hd]
    split_ifs <;> rfl

/-- Claim C7 witness: one signal per `REPLAN_TRAJ` tick, none from
`GEN_NEW_TRAJ`, one from a failed relocation. -/
theorem replan_signal_counts_inst :
    (execFSMCallback (sampleState FSM_EXEC_STATE.REPLAN_TRAJ) (sampleTick 5 false)).2 = 1 ∧
    (execFSMCallback (sampleState FSM_EXEC_STATE.GEN_NEW_TRAJ) (sampleTick 5 false)).2 = 0 ∧
    (checkCollisionCallback (sampleState FSM_EXEC_STATE.EXEC_TRAJ)
        (sampleSafety (1/10) true)).2 = 1 := by
  refine ⟨?_, ?_, ?_⟩
  · rw [(replan_signal_counts (sampleState FSM_EXEC_STATE.REPLAN_TRAJ) (sampleTick 5 false)
        (sampleSafety (1/10) true)).1]
    rfl
  · rw [(replan_signal_counts (sampleState FSM_EXEC_STATE.GEN_NEW_TRAJ) (sampleTick 5 false)
        (sampleSafety (1/10) true)).1]
    rfl
  · refine (replan_signal_counts (sampleState FSM_EXEC_STATE.EXEC_TRAJ) (sampleTick 5 false)
        (sampleSafety (1/10) true)).2.1 rfl ?_ ?_
    · norm_num [evalClearance, sampleSafety, sampleState]
    · unfold relocationResult goalRelocationSearch
      refine foldl_searchStep_le _ _ _ _ (by norm_num) fun p _ => ?_
      norm_num [evalClearance, sampleSafety]

/-- Claim C8: the goal relocation search is deterministic — two clearance
oracles that agree on every candidate point of the grid produce the same
selected best clearance and candidate. -/
theorem goal_relocation_deterministic (c1 c2 : Vec3 → ℚ) (cosF sinF : ℚ → ℚ)
    (g : Vec3) (h : ∀ p ∈ candidatePoints cosF sinF g, c1 p = c2 p) :
    goalRelocationSearch c1 cosF sinF g = goalRelocationSearch c2 cosF sinF g := by
  unfold goalRelocationSearch
  exact foldl_searchStep_congr c1 c2 _ _ h

/-- Claim C8 witness at a concrete oracle and goal. -/
theorem goal_relocation_deterministic_inst :
    goalRelocationSearch (fun _ => 0) (fun _ => 1) (fun _ => 0) ⟨0, 0, 0⟩ =
      goalRelocationSearch (fun _ => 0) (fun _ => 1) (fun _ => 0) ⟨0, 0, 0⟩ :=
  goal_relocation_deterministic (fun _ => 0) (fun _ => 0) (fun _ => 1) (fun _ => 0)
    ⟨0, 0, 0⟩ fun _ _ => rfl

/-- Claim C9: starting from `INIT`, no callback ever assigns the declared
sixth enum value `REPLAN_NEW`, so every reachable execution state indexes
the 5-entry state-name array in bounds. -/
theorem reachable_states_in_bounds (s : FsmState) (h : Reachable s) :
    s.exec_state ≠ FSM_EXEC_STATE.REPLAN_NEW ∧ s.exec_state.toIndex < 5 := by
  have key : s.exec_state ≠ FSM_EXEC_STATE.REPLAN_NEW := by
    induction h with
    | start s hs => rw [hs]; simp
    | step hr hstep ih =>
        cases hstep with
        | exec env => exact execFSMCallback_no_replan_new _ env ih
        | safety env => exact checkCollision_no_replan_new _ env ih
        | waypoint m => exact waypointCallback_no_replan_new _ m ih
        | odom p v q => simpa [odometryCallback] using ih
  refine ⟨key, ?_⟩
  cases he : s.exec_state <;> simp_all [FSM_EXEC_STATE.toIndex]

/-- Claim C9 witness: the state reached by one tick from a concrete `INIT`
state stays off `REPLAN_NEW` and in bounds. -/
theorem reachable_states_in_bounds_inst :
    ((execFSMCallback (sampleState FSM_EXEC_STATE.INIT) (sampleTick 0 true)).1.exec_state ≠
        FSM_EXEC_STATE.REPLAN_NEW) ∧
    (execFSMCallback (sampleState FSM_EXEC_STATE.INIT)
        (sampleTick 0 true)).1.exec_state.toIndex < 5 :=
  reachable_states_in_bounds _
    (Reachable.step (Reachable.start _ rfl)
      (NodeStep.exec (sampleState FSM_EXEC_STATE.INIT) (sampleTick 0 true)))

/-- Claim C10: in manual-target mode, an accepted goal message adopts the
message x and y but forces the goal z-coordinate to the constant 1. -/
theorem manual_target_fixed_height (s : FsmState) (m : Vec3)
    (hm : s.target_type = MANUAL_TARGET) (h : ¬ m.z < -(1/10)) :
    (waypointCallback s m).end_pt = ⟨m.x, m.y, 1⟩ := by
  simp only [waypointCallback, changeFSMExecState, if_neg h]
  split_ifs <;> simp_all

/-- Claim C10 witness: a goal at `(7, 8, -0.05)` is accepted and adopted as
`(7, 8, 1)`. -/
theorem manual_target_fixed_height_inst :
    (waypointCallback (sampleState FSM_EXEC_STATE.EXEC_TRAJ) ⟨7, 8, -(1/20)⟩).end_pt =
      ⟨7, 8, 1⟩ :=
  manual_target_fixed_height (sampleState FSM_EXEC_STATE.EXEC_TRAJ) ⟨7, 8, -(1/20)⟩
    rfl (by norm_num)

end FastPlanner
